import Mathlib

/-!
Shallow embedding of the `apis` Django app (models.py, serializers.py,
views.py) of the API_Strategies_Django repository, together with proofs
about the CRUD contract it implements.

The function-based handlers `fbv_list` and `fbv_pk` of views.py are embedded
as pure state-passing functions over an explicit `Store`; the ORM's table
for each model is a list of records plus an auto-increment counter, and the
serializers' `is_valid` / `errors` / `data` behaviour is embedded as
explicit validation functions returning `Except`.
-/

namespace Apis

/-- models.py `Book`: title, author, published_date (plus the implicit
auto-generated integer primary key `id`).  The `DateField` value is kept in
its ISO-8601 wire form. -/
structure Book where
  id : Nat
  title : String
  author : String
  published_date : String
deriving Repr, DecidableEq

/-- models.py `Review`: foreign key to `Book` (stored as the referenced
book's id, `on_delete = CASCADE`), reviewer, text, rating
(`MinValueValidator 1`, `MaxValueValidator 5`), `created_at`
(auto_now_add timestamp, kept abstract as a Nat). -/
structure Review where
  id : Nat
  book : Nat
  reviewer : String
  text : String
  rating : Int
  created_at : Nat
deriving Repr, DecidableEq

/-- The relational store behind the ORM: one table per model plus the
auto-increment counters for the primary keys. -/
structure Store where
  books : List Book
  reviews : List Review
  nextBookId : Nat
  nextReviewId : Nat
deriving Repr, DecidableEq

/-- A raw field mapping submitted for a Book (request.data): each declared
field either present or absent. -/
structure BookPayload where
  title : Option String
  author : Option String
  published_date : Option String
deriving Repr, DecidableEq

/-- A raw field mapping submitted for a Review. -/
structure ReviewPayload where
  book : Option Nat
  reviewer : Option String
  text : Option String
  rating : Option Int
deriving Repr, DecidableEq

/-- A Book payload that passed `BookSerializer` validation. -/
structure ValidatedBook where
  title : String
  author : String
  published_date : String
deriving Repr, DecidableEq

/-- A Review payload that passed `ReviewSerializer` validation. -/
structure ValidatedReview where
  book : Nat
  reviewer : String
  text : String
  rating : Int
deriving Repr, DecidableEq

/-- `Book.objects.get(pk=pk)`: fetch-by-id over the books table. -/
def getBook (st : Store) (pk : Nat) : Option Book :=
  st.books.find? (fun b => b.id == pk)

/-- `Review.objects.get(pk=pk)`: fetch-by-id over the reviews table. -/
def getReview (st : Store) (pk : Nat) : Option Review :=
  st.reviews.find? (fun r => r.id == pk)

def digitVal (c : Char) : Nat := c.toNat - 48

def daysInMonth (y m : Nat) : Nat :=
  if m == 2 then (if (y % 4 == 0 && y % 100 != 0) || y % 400 == 0 then 29 else 28)
  else if m == 4 || m == 6 || m == 9 || m == 11 then 30 else 31

/-- Modelled from the spec: the wire format carries "dates as ISO-8601
calendar dates" and the serialization layer type-checks `published_date`
as a date.  The actual parsing lives in the framework's `DateField`,
outside this repository, so acceptance of a well-formed `YYYY-MM-DD`
string stands in for it. -/
def validDate (s : String) : Bool :=
  match s.toList with
  | [y1, y2, y3, y4, c1, m1, m2, c2, d1, d2] =>
    (c1 == '-') && (c2 == '-') &&
    ([y1, y2, y3, y4, m1, m2, d1, d2].all Char.isDigit) &&
    (let y := 1000 * digitVal y1 + 100 * digitVal y2 + 10 * digitVal y3 + digitVal y4
     let m := 10 * digitVal m1 + digitVal m2
     let d := 10 * digitVal d1 + digitVal d2
     decide (1 ≤ m) && decide (m ≤ 12) && decide (1 ≤ d) && decide (d ≤ daysInMonth y m))
  | _ => false

/-- serializers.py `BookSerializer` (ModelSerializer over all Book fields):
per-field errors for `title` (required CharField, max_length 255). -/
def titleErrors (p : BookPayload) : List String :=
  match p.title with
  | none => ["This field is required."]
  | some s =>
    if s.length ≤ 255 then []
    else ["Ensure this field has no more than 255 characters."]

/-- `BookSerializer` per-field errors for `author` (required CharField,
max_length 255). -/
def authorErrors (p : BookPayload) : List String :=
  match p.author with
  | none => ["This field is required."]
  | some s =>
    if s.length ≤ 255 then []
    else ["Ensure this field has no more than 255 characters."]

/-- `BookSerializer` per-field errors for `published_date` (required
DateField). -/
def dateErrors (p : BookPayload) : List String :=
  match p.published_date with
  | none => ["This field is required."]
  | some s => if validDate s then [] else ["Date has wrong format."]

/-- `BookSerializer.errors`: the mapping field name to list of messages,
keeping only fields that actually have errors. -/
def bookFieldErrors (p : BookPayload) : List (String × List String) :=
  (if titleErrors p == [] then [] else [("title", titleErrors p)]) ++
  (if authorErrors p == [] then [] else [("author", authorErrors p)]) ++
  (if dateErrors p == [] then [] else [("published_date", dateErrors p)])

/-- `BookSerializer(data=...).is_valid()` together with `validated_data` on
success and `errors` on failure: every declared writable field is required
and type/length/format checked. -/
def validateBook (p : BookPayload) : Except (List (String × List String)) ValidatedBook :=
  match p.title, p.author, p.published_date with
  | some t, some a, some d =>
    if decide (t.length ≤ 255) && decide (a.length ≤ 255) && validDate d
    then Except.ok ⟨t, a, d⟩
    else Except.error (bookFieldErrors p)
  | _, _, _ => Except.error (bookFieldErrors p)

/-- `ReviewSerializer` per-field errors for `book` (required
PrimaryKeyRelatedField: the id must resolve to an existing Book). -/
def bookRefErrors (st : Store) (p : ReviewPayload) : List String :=
  match p.book with
  | none => ["This field is required."]
  | some k =>
    if (getBook st k).isSome then [] else ["Invalid pk - object does not exist."]

/-- `ReviewSerializer` per-field errors for `reviewer` (required CharField,
max_length 100). -/
def reviewerErrors (p : ReviewPayload) : List String :=
  match p.reviewer with
  | none => ["This field is required."]
  | some s =>
    if s.length ≤ 100 then []
    else ["Ensure this field has no more than 100 characters."]

/-- `ReviewSerializer` per-field errors for `text` (required TextField). -/
def textErrors (p : ReviewPayload) : List String :=
  match p.text with
  | none => ["This field is required."]
  | some _ => []

/-- `ReviewSerializer` per-field errors for `rating` (required
IntegerField carrying the model's `MinValueValidator 1` and
`MaxValueValidator 5`). -/
def ratingErrors (p : ReviewPayload) : List String :=
  match p.rating with
  | none => ["This field is required."]
  | some r =>
    (if r < 1 then ["Ensure this value is greater than or equal to 1."] else []) ++
    (if 5 < r then ["Ensure this value is less than or equal to 5."] else [])

/-- `ReviewSerializer.errors`: field name to list of messages.  `id` and
`created_at` are read-only and never produce input errors. -/
def reviewFieldErrors (st : Store) (p : ReviewPayload) : List (String × List String) :=
  (if bookRefErrors st p == [] then [] else [("book", bookRefErrors st p)]) ++
  (if reviewerErrors p == [] then [] else [("reviewer", reviewerErrors p)]) ++
  (if textErrors p == [] then [] else [("text", textErrors p)]) ++
  (if ratingErrors p == [] then [] else [("rating", ratingErrors p)])

/-- `ReviewSerializer(data=...).is_valid()`: all writable fields required,
`book` must resolve against the store, `rating` must lie in [1,5]. -/
def validateReview (st : Store) (p : ReviewPayload) :
    Except (List (String × List String)) ValidatedReview :=
  match p.book, p.reviewer, p.text, p.rating with
  | some k, some rv, some tx, some r =>
    if (getBook st k).isSome && decide (rv.length ≤ 100) &&
       decide (1 ≤ r) && decide (r ≤ 5)
    then Except.ok ⟨k, rv, tx, r⟩
    else Except.error (reviewFieldErrors st p)
  | _, _, _, _ => Except.error (reviewFieldErrors st p)

/-- The serialized (wire) form of a Book, as produced by
`BookSerializer(book).data`. -/
structure BookOut where
  id : Nat
  title : String
  author : String
  published_date : String
deriving Repr, DecidableEq

def serializeBook (b : Book) : BookOut :=
  ⟨b.id, b.title, b.author, b.published_date⟩

/-- The response body of a handler: a serialized book, a list of them, a
field-error mapping (`serializer.errors`), the echoed initial payload
(`serializer.data` when validation failed: DRF falls back to
`get_initial()`, the submitted field mapping), or an empty body. -/
inductive Body where
  | book (b : BookOut)
  | books (bs : List BookOut)
  | errors (e : List (String × List String))
  | initialData (p : BookPayload)
  | empty
deriving Repr, DecidableEq

/-- An HTTP response: status code and body. -/
structure Response where
  code : Nat
  body : Body
deriving Repr, DecidableEq

/-- HTTP methods admitted by the two `@api_view` decorators. -/
inductive Method where
  | GET | POST | PUT | DELETE
deriving Repr, DecidableEq

/-- views.py `fbv_list` (`@api_view(['GET', 'POST'])`):
GET lists all books (200); POST validates and, on success, saves a new book
(auto id) and answers 201 with the serialized entity; on failure it answers
400 with `serializer.data` (the echoed initial payload — the source returns
`serializer.data`, not `serializer.errors`, on this path).  Other methods
are rejected by the decorator (405). -/
def fbv_list (st : Store) (m : Method) (data : BookPayload) : Store × Response :=
  match m with
  | Method.GET => (st, ⟨200, Body.books (st.books.map serializeBook)⟩)
  | Method.POST =>
    match validateBook data with
    | Except.ok v =>
      let b : Book := ⟨st.nextBookId, v.title, v.author, v.published_date⟩
      ({ st with books := st.books ++ [b], nextBookId := st.nextBookId + 1 },
       ⟨201, Body.book (serializeBook b)⟩)
    | Except.error _ => (st, ⟨400, Body.initialData data⟩)
  | _ => (st, ⟨405, Body.empty⟩)

/-- views.py `fbv_pk` (`@api_view(['GET','PUT','DELETE'])`):
first `Book.objects.get(pk=pk)`, answering 404 with empty body when the id
does not resolve; then GET serializes (200), PUT re-validates the full
payload against the instance and on success saves the full replacement
(200) or answers 400 with `serializer.errors`, DELETE removes the book —
the ORM cascades to its reviews — and answers 204 with empty body. -/
def fbv_pk (st : Store) (m : Method) (pk : Nat) (data : BookPayload) :
    Store × Response :=
  match getBook st pk with
  | none => (st, ⟨404, Body.empty⟩)
  | some book =>
    match m with
    | Method.GET => (st, ⟨200, Body.book (serializeBook book)⟩)
    | Method.PUT =>
      match validateBook data with
      | Except.ok v =>
        let b2 : Book := ⟨book.id, v.title, v.author, v.published_date⟩
        ({ st with books := st.books.map (fun x => if x.id == pk then b2 else x) },
         ⟨200, Body.book (serializeBook b2)⟩)
      | Except.error e => (st, ⟨400, Body.errors e⟩)
    | Method.DELETE =>
      ({ st with books := st.books.filter (fun x => x.id != pk),
                 reviews := st.reviews.filter (fun r => r.book != pk) },
       ⟨204, Body.empty⟩)
    | Method.POST => (st, ⟨405, Body.empty⟩)

/-- views.py `cbv_pk.get_object`: `Book.objects.get(pk=pk)`, with `Http404`
raised (here: `none`) when absent. -/
def cbv_get_object (st : Store) (pk : Nat) : Option Book :=
  st.books.find? (fun b => b.id == pk)

/-- The five operations of the resource-handler contract, each routed to
the function-based handler that implements it. -/
inductive Op where
  | list
  | create (p : BookPayload)
  | retrieve (pk : Nat)
  | update (pk : Nat) (p : BookPayload)
  | delete (pk : Nat)
deriving Repr, DecidableEq

/-- An empty field mapping (e.g. the request body of a GET or DELETE). -/
def emptyBookPayload : BookPayload := ⟨none, none, none⟩

def execOp (st : Store) : Op → Store × Response
  | Op.list => fbv_list st Method.GET emptyBookPayload
  | Op.create p => fbv_list st Method.POST p
  | Op.retrieve k => fbv_pk st Method.GET k emptyBookPayload
  | Op.update k p => fbv_pk st Method.PUT k p
  | Op.delete k => fbv_pk st Method.DELETE k emptyBookPayload

/-- Run a sequence of operations, threading the store. -/
def runOps (st : Store) (ops : List Op) : Store :=
  ops.foldl (fun s op => (execOp s op).1) st

/-- Referential integrity: every Review's `book` reference resolves to an
existing Book. -/
def RefIntegrity (st : Store) : Prop :=
  ∀ r ∈ st.reviews, ∃ b ∈ st.books, b.id = r.book

instance (st : Store) : Decidable (RefIntegrity st) := by
  unfold RefIntegrity; infer_instance

/- Concrete objects used by the witness theorems. -/

def bookW : Book := ⟨1, "Dune", "Frank Herbert", "1965-06-01"⟩

def reviewW : Review := ⟨1, 1, "Alice", "Great", 5, 0⟩

def storeW : Store := ⟨[bookW], [reviewW], 2, 2⟩

def emptyStoreW : Store := ⟨[], [], 1, 1⟩

def bookPayloadW : BookPayload :=
  ⟨some "Dune", some "Frank Herbert", some "1965-06-01"⟩

def reviewPayloadW : ReviewPayload :=
  ⟨some 1, some "Alice", some "Great", some 5⟩

def bookW2 : Book := ⟨2, "1984", "George Orwell", "1949-06-08"⟩

def reviewW2 : Review := ⟨2, 2, "Bob", "Fine", 4, 0⟩

def store2W : Store := ⟨[bookW, bookW2], [reviewW, reviewW2], 3, 3⟩

/- Helper lemmas. -/

theorem getBook_id {st : Store} {k : Nat} {b : Book}
    (h : getBook st k = some b) : b.id = k := by
  have := List.find?_some h
  simpa using this

theorem getBook_mem {st : Store} {k : Nat} {b : Book}
    (h : getBook st k = some b) : b ∈ st.books :=
  List.mem_of_find?_eq_some h

theorem find?_append_none {α : Type} {p : α → Bool} {l₁ : List α} (l₂ : List α)
    (h : ∀ a ∈ l₁, p a = false) : (l₁ ++ l₂).find? p = l₂.find? p := by
  induction l₁ with
  | nil => rfl
  | cons x xs ih =>
    have hx := h x (List.mem_cons_self x xs)
    rw [List.cons_append, List.find?_cons_of_neg _ (by simp [hx])]
    exact ih (fun a ha => h a (List.mem_cons_of_mem _ ha))

theorem find?_map_update {l : List Book} {k : Nat} {b b2 : Book}
    (hf : l.find? (fun x => x.id == k) = some b) (hb2 : b2.id = k) :
    (l.map (fun x => if x.id == k then b2 else x)).find?
      (fun x => x.id == k) = some b2 := by
  induction l with
  | nil => simp at hf
  | cons x xs ih =>
    by_cases hx : x.id = k
    · rw [List.map_cons, if_pos (by simp [hx])]
      exact List.find?_cons_of_pos _ (by simp [hb2])
    · rw [List.find?_cons_of_neg _ (by simp [hx])] at hf
      rw [List.map_cons, if_neg (by simp [hx])]
      rw [List.find?_cons_of_neg _ (by simp [hx])]
      exact ih hf

theorem validateBook_ok {p : BookPayload} {v : ValidatedBook}
    (h : validateBook p = Except.ok v) :
    p.title = some v.title ∧ p.author = some v.author ∧
    p.published_date = some v.published_date := by
  obtain ⟨ot, oa, od⟩ := p
  cases ot <;> cases oa <;> cases od <;> simp [validateBook] at h ⊢
  split at h
  · cases h; exact ⟨rfl, rfl, rfl⟩
  · cases h

theorem validateBook_missing {p : BookPayload}
    (h : p.title = none ∨ p.author = none ∨ p.published_date = none) :
    validateBook p = Except.error (bookFieldErrors p) := by
  obtain ⟨ot, oa, od⟩ := p
  rcases h with h | h | h <;> dsimp only at h <;> subst h
  · cases oa <;> cases od <;> rfl
  · cases ot <;> cases od <;> rfl
  · cases ot <;> cases oa <;> rfl

/- Claim theorems. -/

/-- C1 (code_bug evidence): at a failing input — POST of the empty field
mapping, which fails validation, to the book collection — the Create
handler answers 400, but its body is the echoed initial payload
(`serializer.data`), not the field-name-to-messages error mapping (which
here would be nonempty: all three fields are required).  views.py line 60
returns `serializer.data` where the spec requires the field error
details (`serializer.errors`, as the PUT path at line 79 does). -/
theorem c1_create_invalid_echoes_initial_data :
    fbv_list emptyStoreW Method.POST emptyBookPayload =
      (emptyStoreW, ⟨400, Body.initialData emptyBookPayload⟩) ∧
    bookFieldErrors emptyBookPayload =
      [("title", ["This field is required."]),
       ("author", ["This field is required."]),
       ("published_date", ["This field is required."])] :=
  ⟨rfl, rfl⟩

/-- C4: Retrieve, Update and Delete on an id that is not in the store each
answer 404 with an empty body and leave the store untouched, and the
class-based `get_object` resolves no entity either (no partial or default
entity is ever produced). -/
theorem c4_missing_id_404 (st : Store) (k : Nat) (h : getBook st k = none) :
    (∀ p, fbv_pk st Method.GET k p = (st, ⟨404, Body.empty⟩)) ∧
    (∀ p, fbv_pk st Method.PUT k p = (st, ⟨404, Body.empty⟩)) ∧
    (∀ p, fbv_pk st Method.DELETE k p = (st, ⟨404, Body.empty⟩)) ∧
    cbv_get_object st k = none := by
  refine ⟨?_, ?_, ?_, h⟩ <;> intro p <;> simp [fbv_pk, h]

/-- C4 witness: id 99 is absent from the sample store; Retrieve answers
404 with empty body and the unchanged store. -/
theorem c4_missing_id_404_witness :
    fbv_pk storeW Method.GET 99 emptyBookPayload = (storeW, ⟨404, Body.empty⟩) :=
  (c4_missing_id_404 storeW 99 rfl).1 emptyBookPayload

/-- C6: writes are atomic on validation failure — after a failed Create or
a failed Update the store is exactly the store before it, and in
particular the book count a subsequent List sees is unchanged. -/
theorem c6_failed_write_atomic (st : Store) (k : Nat) (p : BookPayload)
    (e : List (String × List String)) (hv : validateBook p = Except.error e) :
    (fbv_list st Method.POST p).1 = st ∧
    (fbv_pk st Method.PUT k p).1 = st ∧
    ((fbv_list st Method.POST p).1).books.length = st.books.length := by
  have h1 : (fbv_list st Method.POST p).1 = st := by simp [fbv_list, hv]
  refine ⟨h1, ?_, by rw [h1]⟩
  unfold fbv_pk
  cases hg : getBook st k with
  | none => rfl
  | some b => simp [hv]

/-- C6 witness: a payload missing two required fields fails validation and
the failed Create leaves the sample store unchanged. -/
theorem c6_failed_write_atomic_witness :
    (fbv_list storeW Method.POST ⟨some "X", none, none⟩).1 = storeW :=
  (c6_failed_write_atomic storeW 1 ⟨some "X", none, none⟩
      (bookFieldErrors ⟨some "X", none, none⟩) rfl).1

/-- C9: the read operations modify nothing — List, and Retrieve on any id
(resolving or not), return the store exactly as it was, every Book and
every Review included. -/
theorem c9_reads_modify_nothing (st : Store) (k : Nat) (p : BookPayload) :
    (fbv_list st Method.GET p).1 = st ∧ (fbv_pk st Method.GET k p).1 = st := by
  refine ⟨rfl, ?_⟩
  unfold fbv_pk
  cases getBook st k <;> rfl

/-- C2: with every other Review field valid (resolvable book id, reviewer
within length bound, text present), validation of a Review payload through
the Review serializer succeeds exactly when the rating lies in [1,5]. -/
theorem c2_review_rating_bounds (st : Store) (p : ReviewPayload) (r : Int)
    (hr : p.rating = some r)
    (hbk : ∃ k, p.book = some k ∧ (getBook st k).isSome = true)
    (hrv : ∃ s, p.reviewer = some s ∧ s.length ≤ 100)
    (htx : ∃ t, p.text = some t) :
    (∃ v, validateReview st p = Except.ok v) ↔ (1 ≤ r ∧ r ≤ 5) := by
  obtain ⟨k, hk, hks⟩ := hbk
  obtain ⟨s, hs, hsl⟩ := hrv
  obtain ⟨t, ht⟩ := htx
  obtain ⟨ob, orv, otx, ora⟩ := p
  dsimp only at hr hk hs ht
  subst hr hk hs ht
  unfold validateReview
  by_cases h1 : 1 ≤ r
  · by_cases h5 : r ≤ 5
    · simp [hks, hsl, h1, h5]
    · simp [hks, hsl, h1, h5]
  · simp [hks, hsl, h1]

/-- C2 witness: the sample Review payload (rating 5, book id resolving in
the sample store) instantiates the equivalence. -/
theorem c2_review_rating_bounds_witness :
    (∃ v, validateReview storeW reviewPayloadW = Except.ok v) ↔
      (1 ≤ (5 : Int) ∧ (5 : Int) ≤ 5) :=
  c2_review_rating_bounds storeW reviewPayloadW 5 rfl
    ⟨1, rfl, rfl⟩ ⟨"Alice", rfl, by decide⟩ ⟨"Great", rfl⟩

/-- C3: Delete on a Book id present in the store answers 204 with empty
body, the Book id no longer resolves afterwards, and (when review ids are
distinct, as primary keys are) no Review that referenced the deleted Book
resolves afterwards. -/
theorem c3_delete_cascades (st : Store) (k : Nat) (b : Book)
    (hnd : (st.reviews.map Review.id).Nodup)
    (hb : getBook st k = some b) :
    (fbv_pk st Method.DELETE k emptyBookPayload).2 = ⟨204, Body.empty⟩ ∧
    getBook (fbv_pk st Method.DELETE k emptyBookPayload).1 k = none ∧
    ∀ rv ∈ st.reviews, rv.book = k →
      getReview (fbv_pk st Method.DELETE k emptyBookPayload).1 rv.id = none := by
  simp only [fbv_pk, hb]
  refine ⟨by trivial, ?_, ?_⟩
  · unfold getBook
    dsimp only
    rw [List.find?_eq_none]
    intro x hx hpx
    rw [List.mem_filter] at hx
    have h1 : x.id ≠ k := by simpa using hx.2
    exact h1 (by simpa using hpx)
  · intro rv hrv hrk
    unfold getReview
    dsimp only
    rw [List.find?_eq_none]
    intro x hx hpx
    rw [List.mem_filter] at hx
    have hxid : x.id = rv.id := by simpa using hpx
    have hxrv : x = rv := List.inj_on_of_nodup_map hnd hx.1 hrv hxid
    have h2 : x.book ≠ k := by simpa using hx.2
    exact h2 (hxrv ▸ hrk)

/-- C3 witness: deleting Book 1 from the sample store makes the Review
referencing it stop resolving. -/
theorem c3_delete_cascades_witness :
    getReview (fbv_pk storeW Method.DELETE 1 emptyBookPayload).1 reviewW.id = none :=
  (c3_delete_cascades storeW 1 bookW (by decide) rfl).2.2 reviewW (by decide) rfl

/-- C5: for a Book payload that passes validation, Create answers 201 with
the serialized created entity, and Retrieve at the id Create returned
yields a record whose title, author and published_date are exactly the
submitted payload's fields (the freshness hypothesis on existing ids is
the auto-increment invariant of the primary-key counter). -/
theorem c5_create_then_retrieve (st : Store) (p : BookPayload) (v : ValidatedBook)
    (hwf : ∀ b ∈ st.books, b.id < st.nextBookId)
    (hv : validateBook p = Except.ok v) :
    (fbv_list st Method.POST p).2 =
      ⟨201, Body.book ⟨st.nextBookId, v.title, v.author, v.published_date⟩⟩ ∧
    (fbv_pk (fbv_list st Method.POST p).1 Method.GET st.nextBookId p).2 =
      ⟨200, Body.book ⟨st.nextBookId, v.title, v.author, v.published_date⟩⟩ ∧
    p.title = some v.title ∧ p.author = some v.author ∧
    p.published_date = some v.published_date := by
  have hfields := validateBook_ok hv
  refine ⟨?_, ?_, hfields.1, hfields.2.1, hfields.2.2⟩
  · simp [fbv_list, hv, serializeBook]
  · have hnone : ∀ b ∈ st.books, (b.id == st.nextBookId) = false := by
      intro b hb
      simp [Nat.ne_of_lt (hwf b hb)]
    simp only [fbv_list, hv]
    unfold fbv_pk getBook
    dsimp only
    rw [find?_append_none _ hnone]
    simp [serializeBook]

/-- C5 witness: creating the sample Book payload in the empty store and
retrieving id 1 returns exactly the submitted fields. -/
theorem c5_create_then_retrieve_witness :
    (fbv_pk (fbv_list emptyStoreW Method.POST bookPayloadW).1 Method.GET
        emptyStoreW.nextBookId bookPayloadW).2 =
      ⟨200, Body.book ⟨emptyStoreW.nextBookId, "Dune", "Frank Herbert",
        "1965-06-01"⟩⟩ :=
  (c5_create_then_retrieve emptyStoreW bookPayloadW
      ⟨"Dune", "Frank Herbert", "1965-06-01"⟩ (by decide) rfl).2.1

/-- C7: Update is a full replace — on an existing Book, a payload missing
any declared field is rejected with 400 (field errors) and nothing
changes, and on success the stored entity's fields are exactly the
submitted mapping (none inherited from the old entity). -/
theorem c7_update_full_replace (st : Store) (k : Nat) (p : BookPayload) (b : Book)
    (hb : getBook st k = some b) :
    ((p.title = none ∨ p.author = none ∨ p.published_date = none) →
      fbv_pk st Method.PUT k p = (st, ⟨400, Body.errors (bookFieldErrors p)⟩)) ∧
    (∀ v, validateBook p = Except.ok v →
      getBook (fbv_pk st Method.PUT k p).1 k =
        some ⟨k, v.title, v.author, v.published_date⟩ ∧
      (fbv_pk st Method.PUT k p).2 =
        ⟨200, Body.book ⟨k, v.title, v.author, v.published_date⟩⟩ ∧
      p.title = some v.title ∧ p.author = some v.author ∧
      p.published_date = some v.published_date) := by
  have hid := getBook_id hb
  constructor
  · intro hmiss
    simp [fbv_pk, hb, validateBook_missing hmiss]
  · intro v hv
    have hf := validateBook_ok hv
    refine ⟨?_, ?_, hf.1, hf.2.1, hf.2.2⟩
    · simp only [fbv_pk, hb, hv]
      unfold getBook
      dsimp only
      have heq : (⟨b.id, v.title, v.author, v.published_date⟩ : Book) =
          ⟨k, v.title, v.author, v.published_date⟩ := by rw [hid]
      rw [← heq]
      exact find?_map_update hb hid
    · simp [fbv_pk, hb, hv, serializeBook, hid]

/-- C7 witness: updating Book 1 of the sample store with a payload missing
author and published_date is rejected with the field errors and leaves the
store unchanged. -/
theorem c7_update_full_replace_witness :
    fbv_pk storeW Method.PUT 1 ⟨some "X", none, none⟩ =
      (storeW, ⟨400, Body.errors (bookFieldErrors ⟨some "X", none, none⟩)⟩) :=
  (c7_update_full_replace storeW 1 ⟨some "X", none, none⟩ bookW rfl).1
    (Or.inr (Or.inl rfl))

/-- C10: cascade delete is precisely scoped — deleting an existing Book k
keeps every Book with a different id and every Review referencing a
different book, and everything kept (and only that) comes unchanged from
the old store. -/
theorem c10_delete_frame (st : Store) (k : Nat) (b : Book)
    (hb : getBook st k = some b) :
    (∀ x ∈ st.books, x.id ≠ k →
      x ∈ (fbv_pk st Method.DELETE k emptyBookPayload).1.books) ∧
    (∀ x ∈ (fbv_pk st Method.DELETE k emptyBookPayload).1.books,
      x ∈ st.books ∧ x.id ≠ k) ∧
    (∀ rv ∈ st.reviews, rv.book ≠ k →
      rv ∈ (fbv_pk st Method.DELETE k emptyBookPayload).1.reviews) ∧
    (∀ rv ∈ (fbv_pk st Method.DELETE k emptyBookPayload).1.reviews,
      rv ∈ st.reviews ∧ rv.book ≠ k) := by
  simp only [fbv_pk, hb]
  refine ⟨?_, ?_, ?_, ?_⟩ <;> intro x hx
  · intro hne
    rw [List.mem_filter]
    exact ⟨hx, by simpa using hne⟩
  · rw [List.mem_filter] at hx
    exact ⟨hx.1, by simpa using hx.2⟩
  · intro hne
    rw [List.mem_filter]
    exact ⟨hx, by simpa using hne⟩
  · rw [List.mem_filter] at hx
    exact ⟨hx.1, by simpa using hx.2⟩

/-- C10 witness: deleting Book 1 from the two-book sample store keeps the
other Book and its Review. -/
theorem c10_delete_frame_witness :
    bookW2 ∈ (fbv_pk store2W Method.DELETE 1 emptyBookPayload).1.books :=
  (c10_delete_frame store2W 1 bookW rfl).1 bookW2 (by decide) (by decide)

theorem refIntegrity_execOp (st : Store) (op : Op) (h : RefIntegrity st) :
    RefIntegrity (execOp st op).1 := by
  cases op with
  | list => exact h
  | retrieve k =>
    simp only [execOp]
    cases hg : getBook st k with
    | none => simp only [fbv_pk, hg]; exact h
    | some b => simp only [fbv_pk, hg]; exact h
  | create p =>
    simp only [execOp]
    cases hv : validateBook p with
    | error e => simp only [fbv_list, hv]; exact h
    | ok v =>
      simp only [fbv_list, hv]
      intro rv hrv
      obtain ⟨b0, hb0, hbid⟩ := h rv hrv
      exact ⟨b0, List.mem_append_left _ hb0, hbid⟩
  | update k p =>
    simp only [execOp]
    cases hg : getBook st k with
    | none => simp only [fbv_pk, hg]; exact h
    | some b =>
      cases hv : validateBook p with
      | error e => simp only [fbv_pk, hg, hv]; exact h
      | ok v =>
        simp only [fbv_pk, hg, hv]
        intro rv hrv
        obtain ⟨b0, hb0, hbid⟩ := h rv hrv
        by_cases hb0k : b0.id = k
        · refine ⟨⟨b.id, v.title, v.author, v.published_date⟩, ?_, ?_⟩
          · have hcast : (fun x => if x.id == k then
                (⟨b.id, v.title, v.author, v.published_date⟩ : Book) else x) b0 =
                ⟨b.id, v.title, v.author, v.published_date⟩ := by
              simp [hb0k]
            have hmem := List.mem_map_of_mem (fun x => if x.id == k then
                (⟨b.id, v.title, v.author, v.published_date⟩ : Book) else x) hb0
            rw [hcast] at hmem
            exact hmem
          · show b.id = rv.book
            rw [getBook_id hg, ← hb0k]
            exact hbid
        · refine ⟨b0, ?_, hbid⟩
          have hcast : (fun x => if x.id == k then
              (⟨b.id, v.title, v.author, v.published_date⟩ : Book) else x) b0 = b0 := by
            simp [hb0k]
          have hmem := List.mem_map_of_mem (fun x => if x.id == k then
              (⟨b.id, v.title, v.author, v.published_date⟩ : Book) else x) hb0
          rw [hcast] at hmem
          exact hmem
  | delete k =>
    simp only [execOp]
    cases hg : getBook st k with
    | none => simp only [fbv_pk, hg]; exact h
    | some b =>
      simp only [fbv_pk, hg]
      intro rv hrv
      rw [List.mem_filter] at hrv
      obtain ⟨b0, hb0, hbid⟩ := h rv hrv.1
      have hrvk : rv.book ≠ k := by simpa using hrv.2
      refine ⟨b0, ?_, hbid⟩
      rw [List.mem_filter]
      exact ⟨hb0, by simp [hbid, hrvk]⟩

/-- C8: referential integrity is an invariant — from any store in which
every Review's book reference resolves, any sequence of List, Create,
Retrieve, Update and Delete operations leads only to stores in which every
Review's book reference still resolves to an existing Book. -/
theorem c8_ref_integrity_invariant (st : Store) (ops : List Op)
    (h : RefIntegrity st) : RefIntegrity (runOps st ops) := by
  induction ops generalizing st with
  | nil => exact h
  | cons op rest ih => exact ih (execOp st op).1 (refIntegrity_execOp st op h)

/-- C8 witness: the sample store satisfies the invariant, and still does
after a delete, a create and a list. -/
theorem c8_ref_integrity_invariant_witness :
    RefIntegrity (runOps store2W
      [Op.delete 1, Op.create bookPayloadW, Op.list]) :=
  c8_ref_integrity_invariant store2W
    [Op.delete 1, Op.create bookPayloadW, Op.list] (by decide)

end Apis
